import Mathlib

/-!
Verification of the module-change-impact test selector and the Terraform
plan/validation analysis harness of the repository
`Data-Engineering-global-azure-terraform-modules`.

The Python sources are shallowly embedded:

* `scripts/test_changed_modules.py` — repository-relative file paths are
  modelled as `String`s; `pathlib.Path` values are modelled by their
  sequence of path components (`List String`), which is exactly the data
  `Path.parts` exposes and the data `Path.relative_to` / `Path.name`
  operate on.
* `tests/terraform/base.py` — the external `python_terraform` client is
  modelled as a record of subcommand results (the tuples
  `(return_code, stdout, stderr)` that `base.py`'s own type annotations
  declare); Python `raise RuntimeError(...)` is modelled by
  `Except.error` with the raised message, a normal `return` by
  `Except.ok`.
* `tests/terraform/base_validation.py` — `subprocess.run(..., timeout=120)`
  is modelled by pairing each external process with its duration: the run
  completes normally when the duration is within the timeout and raises
  `TimeoutExpired` (escalated by the source to `RuntimeError`) otherwise.

JSON/Python values stored in plan documents are modelled by `PyVal`, with
`PyVal.vNone` playing the role of Python `None`; `dict.get(k)` with its
default of `None` is `dictGet`.
-/

/-- A scalar Python/JSON value as it appears in decoded plan documents and
expected-attribute mappings.  `vNone` is Python `None`.  (Composite values
play no role in any property proved here; equality testing is the only
operation the source applies to these values.) -/
inductive PyVal where
  | vNone
  | vBool (b : Bool)
  | vInt (n : Int)
  | vStr (s : String)
  deriving DecidableEq, Repr

/-- Python `d.get(k)` on a string-keyed dictionary: the stored value when
the key is present, `None` (here `PyVal.vNone`) when it is absent. -/
def dictGet (d : List (String × PyVal)) (k : String) : PyVal :=
  match d.find? (fun kv => kv.1 == k) with
  | some kv => kv.2
  | none => PyVal.vNone

/-! ## `scripts/test_changed_modules.py` -/

/-- Splitting a character list at `/`, accumulating the current segment in
reverse (Python `str.split("/")`, written by structural recursion so that
concrete paths evaluate). -/
def splitSlash : List Char → List Char → List String
  | [], acc => [String.mk acc.reverse]
  | c :: cs, acc =>
    if c = '/' then String.mk acc.reverse :: splitSlash cs []
    else splitSlash cs (c :: acc)

/-- The components of a relative `pathlib.Path` built from a path string:
split on `/`, dropping empty components and `.` components, exactly as
`PurePosixPath` normalisation does. -/
def parsePath (s : String) : List String :=
  (splitSlash s.data []).filter (fun seg => seg != "" && seg != ".")

/-- Models success of `Path(changed_file).relative_to(module_path)`: it succeeds exactly when the
module's components are a whole-segment prefix of the file's components
(for the relative, already-normalised paths used here); the source wraps
the call in `try ... except ValueError` and uses only success/failure. -/
def relative_to_succeeds (changed_path module_path : List String) : Bool :=
  module_path.isPrefixOf changed_path

/-- One changed file affects one module when `relative_to` succeeds
(the body of the double loop in `get_affected_modules`). -/
def is_affected (changed_files : List String) (module_path : List String) : Bool :=
  changed_files.any (fun f => relative_to_succeeds (parsePath f) module_path)

/-- Models `get_affected_modules(changed_files)`: the set of discovered modules
that contain at least one changed file.  The filesystem scan
`find_terraform_modules()` is passed in as `terraform_modules`; the Python
double loop builds a `set`, modelled here (up to membership) by filtering
the module list. -/
def get_affected_modules (changed_files : List String)
    (terraform_modules : List (List String)) : List (List String) :=
  terraform_modules.filter (is_affected changed_files)

/-- The `(return_code, stdout, stderr)` triple `run_command` returns.
`run_command` itself catches every exception and turns it into
`(1, "", str(e))`, so each invocation is modelled by the triple it
produces. -/
abbrev CmdResult := Int × String × String

/-- The results of the four version-control queries `get_changed_files`
issues, in source order: `git diff --name-only BASE...HEAD`,
`git diff --name-only HEAD`, `git diff --name-only --cached`,
`git ls-files --others --exclude-standard`. -/
structure GitState where
  diff_base : CmdResult
  diff_head : CmdResult
  diff_cached : CmdResult
  ls_files_others : CmdResult

/-- The contribution of one query to the changed-file set: the lines of
stripped stdout when the query exited 0 with non-empty stripped output,
nothing otherwise (`if ret_code == 0 and stdout.strip(): ...`). -/
def queryContribution (q : CmdResult) : List String :=
  if q.1 == 0 && q.2.1.trim != "" then (q.2.1.trim.splitOn "\n") else []

/-- Models `get_changed_files(base_branch)`: union of the four query
contributions, the untracked-files contribution filtered to paths starting
with `terraform/`.  The Python `set` union is modelled (up to membership)
by list append. -/
def get_changed_files (git : GitState) : List String :=
  let branch_changes := queryContribution git.diff_base
  let unstaged_changes := queryContribution git.diff_head
  let staged_changes := queryContribution git.diff_cached
  let untracked_files := queryContribution git.ls_files_others
  let terraform_untracked := untracked_files.filter (fun f => f.startsWith "terraform/")
  branch_changes ++ unstaged_changes ++ staged_changes ++ terraform_untracked

/-- Python `name.replace("-", "_")` for the single-character pattern:
a character map (written explicitly so that concrete names evaluate). -/
def replaceDashUnderscore (s : String) : String :=
  String.mk (s.data.map fun c => if c = '-' then '_' else c)

/-- Models `get_module_test_file(module_path, test_type)`: the module directory's
final component (`Path.name`, empty for an empty path) with `-` replaced
by `_`, wrapped into `test_<name>_validation.py` when `test_type` is
`"validation"` and `test_<name>_terraform.py` otherwise, under
`tests/terraform/modules`. -/
def get_module_test_file (module_path : List String)
    (test_type : String := "validation") : List String :=
  let module_name := replaceDashUnderscore (module_path.getLastD "")
  let test_file :=
    if test_type = "validation" then "test_" ++ module_name ++ "_validation.py"
    else "test_" ++ module_name ++ "_terraform.py"
  ["tests", "terraform", "modules", test_file]

/-! ## `tests/terraform/base.py` — plan document and `TerraformPlanAnalyzer` -/

/-- One entry of `resource_changes[]`.  `change_actions` is
`change.get("change", {}).get("actions")`: `none` when the `change` or
`actions` key is absent, otherwise the ordered list of action verbs. -/
structure ResourceChange where
  address : String
  change_actions : Option (List String)
  deriving DecidableEq, Repr

/-- One entry of `planned_values.root_module.resources[]`.  `type` is
`resource.get("type")` (`none` when absent); `values` is the
`resource.get("values", {})` mapping. -/
structure PlannedResource where
  type : Option String
  values : List (String × PyVal)
  deriving DecidableEq, Repr

/-- The JSON-decoded plan document, holding the three substructures the
analyzer reads: `planned_values.root_module.resources`,
`resource_changes`, and `planned_values.outputs` (each `get` defaulting to
an empty container when the key chain is absent, which the embedding
represents by the empty list). -/
structure PlanDocument where
  planned_resources : List PlannedResource
  resource_changes : List ResourceChange
  outputs : List (String × PyVal)
  deriving DecidableEq, Repr

namespace TerraformPlanAnalyzer

/-- Models `get_planned_resources`: `planned_values.root_module.resources`, `[]`
if any key on the chain is missing. -/
def get_planned_resources (a : PlanDocument) : List PlannedResource :=
  a.planned_resources

/-- Models `get_resource_changes`: `plan_json.get("resource_changes", [])`. -/
def get_resource_changes (a : PlanDocument) : List ResourceChange :=
  a.resource_changes

/-- Models `resources_to_create`: changes whose `change.actions` equals
`["create"]`. -/
def resources_to_create (a : PlanDocument) : List ResourceChange :=
  (get_resource_changes a).filter (fun c => c.change_actions == some ["create"])

/-- Models `resources_to_update`: changes whose `change.actions` equals
`["update"]`. -/
def resources_to_update (a : PlanDocument) : List ResourceChange :=
  (get_resource_changes a).filter (fun c => c.change_actions == some ["update"])

/-- Models `resources_to_delete`: changes whose `change.actions` equals
`["delete"]`. -/
def resources_to_delete (a : PlanDocument) : List ResourceChange :=
  (get_resource_changes a).filter (fun c => c.change_actions == some ["delete"])

/-- Models `get_resource_by_type`: planned resources whose `type` field equals
the queried type string. -/
def get_resource_by_type (a : PlanDocument) (resource_type : String) :
    List PlannedResource :=
  (get_planned_resources a).filter (fun r => r.type == some resource_type)

/-- Models `resource_count`: length of the planned-resource list. -/
def resource_count (a : PlanDocument) : Nat :=
  (get_planned_resources a).length

/-- Models `validate_resource_attributes`: for every resource of the given type
and every expected `(key, value)` pair, `values.get(key)` must equal the
expected value; the Python loop returns `False` at the first mismatch and
`True` if none is found. -/
def validate_resource_attributes (a : PlanDocument) (resource_type : String)
    (expected_attributes : List (String × PyVal)) : Bool :=
  (get_resource_by_type a resource_type).all fun r =>
    expected_attributes.all fun kv => dictGet r.values kv.1 == kv.2

end TerraformPlanAnalyzer

/-! ## `tests/terraform/base.py` — `TerraformTestBase` lifecycle -/

/-- The external `python_terraform.Terraform` client, modelled by the
result triple each subcommand invocation produces (the
`tuple[int, str, str]` contract `base.py`'s annotations declare).
`plan` takes the optional `var_file` and `out` keyword arguments the
source passes; `show_cmd` models `show(plan_file, json=True,
capture_output=True)`, whose stdout is then fed to `json.loads`, modelled
by the client's `decode` component. -/
structure Terraform where
  init : CmdResult
  validate : CmdResult
  plan : Option String → Option String → CmdResult
  show_cmd : String → CmdResult
  decode : String → PlanDocument

/-- The mutable state of a `TerraformTestBase` instance: the temporary
workspace directory and the Terraform client, each `None` until
`setup_test_workspace` runs and reset to `None` by `cleanup`. -/
structure TerraformTestBase where
  module_path : String
  test_dir : Option String
  terraform : Option Terraform

namespace TerraformTestBase

/-- Models `__init__(module_path)`: both optional fields start as `None`. -/
def mk_instance (module_path : String) : TerraformTestBase :=
  { module_path := module_path, test_dir := none, terraform := none }

/-- Models `setup_test_workspace`: acquire a fresh temporary directory (supplied
here by the environment), copy the module into it, and construct the
Terraform client over it. -/
def setup_test_workspace (self : TerraformTestBase) (fresh_dir : String)
    (client : Terraform) : TerraformTestBase :=
  { self with test_dir := some fresh_dir, terraform := some client }

/-- Models `create_test_configuration`: raises when the workspace is not set up,
otherwise writes the generated `main.tf` and returns its path (the purely
textual `_generate_main_tf` content plays no role in any property proved
here). -/
def create_test_configuration (self : TerraformTestBase) : Except String String :=
  match self.test_dir with
  | none => Except.error "Test workspace not set up. Call setup_test_workspace() first."
  | some d => Except.ok (d ++ "/main.tf")

/-- Models `terraform_init`: raises when the client is not initialized, otherwise
returns `self.terraform.init()`'s triple unchanged. -/
def terraform_init (self : TerraformTestBase) : Except String CmdResult :=
  match self.terraform with
  | none => Except.error "Terraform not initialized. Call setup_test_workspace() first."
  | some t => Except.ok t.init

/-- Models `terraform_validate`: raises when the client is not initialized,
otherwise returns `self.terraform.validate()`'s triple unchanged. -/
def terraform_validate (self : TerraformTestBase) : Except String CmdResult :=
  match self.terraform with
  | none => Except.error "Terraform not initialized. Call setup_test_workspace() first."
  | some t => Except.ok t.validate

/-- Models `terraform_plan`: raises when the client is not initialized, otherwise
returns `self.terraform.plan(var_file=...)`'s triple unchanged (no `out`
argument). -/
def terraform_plan (self : TerraformTestBase) (var_file : Option String := none) :
    Except String CmdResult :=
  match self.terraform with
  | none => Except.error "Terraform not initialized. Call setup_test_workspace() first."
  | some t => Except.ok (t.plan var_file none)

/-- Models `terraform_plan_json`: raises when client or workspace is missing;
runs `plan` with `out=<test_dir>/plan.tfplan` and raises on a non-zero
exit; then runs `show` on the plan file and raises on a non-zero exit;
otherwise returns the JSON-decoded document. -/
def terraform_plan_json (self : TerraformTestBase)
    (var_file : Option String := none) : Except String PlanDocument :=
  match self.terraform, self.test_dir with
  | some t, some d =>
    let plan_file := d ++ "/plan.tfplan"
    let r := t.plan var_file (some plan_file)
    if r.1 != 0 then Except.error ("Terraform plan failed: " ++ r.2.2)
    else
      let s := t.show_cmd plan_file
      if s.1 != 0 then Except.error ("Terraform show failed: " ++ s.2.2)
      else Except.ok (t.decode s.2.1)
  | _, _ => Except.error "Terraform not initialized. Call setup_test_workspace() first."

/-- Models `cleanup`: removes the workspace directory when one is recorded (the
returned flag says whether the guarded `shutil.rmtree` call was reached;
the source additionally re-checks that the directory still exists) and
clears both references. -/
def cleanup (self : TerraformTestBase) : TerraformTestBase × Bool :=
  ({ self with test_dir := none, terraform := none }, self.test_dir.isSome)

end TerraformTestBase

/-! ## `tests/terraform/base_validation.py` — `TerraformValidationTest` -/

/-- One external terraform process as observed by `subprocess.run(...,
timeout=120)`: how long it runs and, when it completes, its result
triple.  `subprocess.run` returns the completed result when the duration
is within the timeout and raises `TimeoutExpired` otherwise. -/
structure ProcExec where
  duration : Nat
  returncode : Int
  stdout : String
  stderr : String

/-- The state of a `TerraformValidationTest` instance: the resolved
terraform executable (the constructor raises when none is found, so an
instance always holds one) and the optional workspace directory. -/
structure TerraformValidationTest where
  terraform_cmd : String
  test_dir : Option String

namespace TerraformValidationTest

/-- The timeout `_run_terraform_command` passes to `subprocess.run`
(`timeout=120`, "2 minute timeout"). -/
def command_timeout : Nat := 120

/-- Models `_run_terraform_command(args)`: raises when the workspace is not set
up; runs `[terraform_cmd] + args` under the 120-unit timeout; a timeout is
escalated to a `RuntimeError` naming the full command, while a completed
run's `(returncode, stdout, stderr)` — zero or not — is returned. -/
def _run_terraform_command (self : TerraformValidationTest) (args : List String)
    (proc : ProcExec) : Except String CmdResult :=
  match self.test_dir with
  | none => Except.error "Test workspace not set up"
  | some _ =>
    let cmd := self.terraform_cmd :: args
    if proc.duration ≤ command_timeout then
      Except.ok (proc.returncode, proc.stdout, proc.stderr)
    else
      Except.error ("Terraform command timed out: " ++ " ".intercalate cmd)

/-- Models `terraform_init_backend_false`: `init -backend=false -no-color`. -/
def terraform_init_backend_false (self : TerraformValidationTest)
    (proc : ProcExec) : Except String CmdResult :=
  _run_terraform_command self ["init", "-backend=false", "-no-color"] proc

/-- Models `terraform_validate`: `validate -no-color`. -/
def terraform_validate (self : TerraformValidationTest)
    (proc : ProcExec) : Except String CmdResult :=
  _run_terraform_command self ["validate", "-no-color"] proc

/-- Models `terraform_fmt_check`: `fmt -check -no-color`. -/
def terraform_fmt_check (self : TerraformValidationTest)
    (proc : ProcExec) : Except String CmdResult :=
  _run_terraform_command self ["fmt", "-check", "-no-color"] proc

end TerraformValidationTest

/-! ## Concrete fixtures used by individual claims -/

/-- A client whose `init` and `plan` subcommands exit non-zero: exercises
the return-versus-raise behaviour of the `TerraformTestBase` wrappers. -/
def failingClient : Terraform :=
  { init := (1, "", "init failed")
    validate := (0, "Success!", "")
    plan := fun _ _ => (1, "", "plan failed")
    show_cmd := fun _ => (0, "", "")
    decode := fun _ => ⟨[], [], []⟩ }

/-- A `TerraformTestBase` instance after `setup_test_workspace`, wired to
`failingClient`. -/
def failingState : TerraformTestBase :=
  TerraformTestBase.setup_test_workspace
    (TerraformTestBase.mk_instance "terraform/foundation/resource-group")
    "/tmp/terraform_test_abc" failingClient

/-! ## Theorems -/

/-- C1: a changed file affects a discovered module exactly when the
module's path components are a whole-segment prefix of the file's path
components (the file is the module itself or a descendant of it); in
particular a file under `terraform/foo-module2` does not affect a module
rooted at `terraform/foo-module`. -/
theorem C1_affected_modules_whole_segments :
    (∀ (changed_files : List String) (terraform_modules : List (List String))
        (M : List String),
      M ∈ get_affected_modules changed_files terraform_modules ↔
        M ∈ terraform_modules ∧
          ∃ F ∈ changed_files, M.isPrefixOf (parsePath F) = true) ∧
    get_affected_modules ["terraform/foo-module2/main.tf"]
      [["terraform", "foo-module"]] = [] := by
  constructor
  · intro changed_files terraform_modules M
    simp [get_affected_modules, is_affected, relative_to_succeeds, List.mem_filter,
      List.any_eq_true]
  · decide

/-- C1 witness: `terraform/foo-module/main.tf` does affect the module
rooted at `terraform/foo-module`, by the characterisation of C1. -/
theorem C1_affected_modules_whole_segments_witness :
    ["terraform", "foo-module"] ∈
      get_affected_modules ["terraform/foo-module/main.tf"]
        [["terraform", "foo-module"]] :=
  (C1_affected_modules_whole_segments.1 _ _ _).mpr
    ⟨by decide, "terraform/foo-module/main.tf", by decide, by decide⟩

/-- C4: a version-control query that exits non-zero (or produces only
whitespace) contributes no paths to `get_changed_files`, and when all four
queries fail the result is the empty set; the function itself is total
(`run_command` converts every exception into a non-zero result). -/
theorem C4_failed_queries_contribute_nothing :
    (∀ q : CmdResult, q.1 ≠ 0 ∨ q.2.1.trim = "" → queryContribution q = []) ∧
    (∀ git : GitState, git.diff_base.1 ≠ 0 → git.diff_head.1 ≠ 0 →
      git.diff_cached.1 ≠ 0 → git.ls_files_others.1 ≠ 0 →
      get_changed_files git = []) := by
  have hq : ∀ q : CmdResult, q.1 ≠ 0 ∨ q.2.1.trim = "" → queryContribution q = [] := by
    intro q h
    rcases h with h | h
    · simp [queryContribution, h]
    · simp [queryContribution, h]
  refine ⟨hq, ?_⟩
  intro git h1 h2 h3 h4
  simp [get_changed_files, hq _ (Or.inl h1), hq _ (Or.inl h2), hq _ (Or.inl h3),
    hq _ (Or.inl h4)]

/-- C4 witness: with all four queries exiting 1, the changed-file set is
empty. -/
theorem C4_failed_queries_contribute_nothing_witness :
    get_changed_files
      ⟨(1, "", "fatal"), (1, "", "fatal"), (1, "", "fatal"), (1, "", "fatal")⟩ = [] :=
  C4_failed_queries_contribute_nothing.2 _ (by decide) (by decide) (by decide)
    (by decide)

/-- C8: `get_module_test_file` is a deterministic pure transform — equal
inputs give equal outputs — and for any module the path produced for the
`"validation"` kind differs from the path produced for any other kind. -/
theorem C8_module_test_file_deterministic_kinds_distinct :
    (∀ (m₁ m₂ : List String) (k₁ k₂ : String), m₁ = m₂ → k₁ = k₂ →
      get_module_test_file m₁ k₁ = get_module_test_file m₂ k₂) ∧
    (∀ (m : List String) (k : String), k ≠ "validation" →
      get_module_test_file m "validation" ≠ get_module_test_file m k) := by
  constructor
  · intro m₁ m₂ k₁ k₂ hm hk
    rw [hm, hk]
  · intro m k hk heq
    simp only [get_module_test_file, if_pos rfl, if_neg hk, if_true,
      eq_self_iff_true, List.cons.injEq, and_true, true_and] at heq
    have hlen := congrArg String.length heq
    simp only [String.length_append] at hlen
    have h14 : "_validation.py".length = 14 := rfl
    have h13 : "_terraform.py".length = 13 := rfl
    rw [h14, h13] at hlen
    omega

/-- C8 witness: at the module `terraform/foundation/resource-group`, the
`"validation"` and `"plan"` kinds map to distinct test files. -/
theorem C8_module_test_file_deterministic_kinds_distinct_witness :
    get_module_test_file ["terraform", "foundation", "resource-group"] "validation" ≠
      get_module_test_file ["terraform", "foundation", "resource-group"] "plan" :=
  C8_module_test_file_deterministic_kinds_distinct.2 _ "plan" (by decide)

/-- C10: the test-file mapping depends only on the module directory's
final component: two module paths with equal basenames map to the same
test file for every kind, and two concrete distinct module paths sharing
the basename `resource-group` collide, so the mapping is not injective. -/
theorem C10_module_test_file_basename_only :
    (∀ (m₁ m₂ : List String) (k : String), m₁.getLastD "" = m₂.getLastD "" →
      get_module_test_file m₁ k = get_module_test_file m₂ k) ∧
    ((["terraform", "foundation", "resource-group"] : List String) ≠
        ["terraform", "platform", "resource-group"] ∧
      get_module_test_file ["terraform", "foundation", "resource-group"] "validation" =
        get_module_test_file ["terraform", "platform", "resource-group"] "validation") := by
  refine ⟨?_, by decide, by decide⟩
  intro m₁ m₂ k h
  simp only [get_module_test_file, h]

/-- C10 witness: the basename-only dependence applied to the two concrete
colliding module paths, for the non-validation kind as well. -/
theorem C10_module_test_file_basename_only_witness :
    get_module_test_file ["terraform", "foundation", "resource-group"] "plan" =
      get_module_test_file ["terraform", "platform", "resource-group"] "plan" :=
  C10_module_test_file_basename_only.1 _ _ "plan" (by decide)

/-- C3: `resources_to_create`/`update`/`delete` select exactly the
resource changes whose `change.actions` equals the corresponding
single-element list; the three selections are pairwise disjoint, and a
multi-action change such as `["delete", "create"]` is selected by none of
them. -/
theorem C3_action_filters_exact_and_disjoint :
    ∀ (a : PlanDocument) (c : ResourceChange),
      (c ∈ TerraformPlanAnalyzer.resources_to_create a ↔
        c ∈ TerraformPlanAnalyzer.get_resource_changes a ∧
          c.change_actions = some ["create"]) ∧
      (c ∈ TerraformPlanAnalyzer.resources_to_update a ↔
        c ∈ TerraformPlanAnalyzer.get_resource_changes a ∧
          c.change_actions = some ["update"]) ∧
      (c ∈ TerraformPlanAnalyzer.resources_to_delete a ↔
        c ∈ TerraformPlanAnalyzer.get_resource_changes a ∧
          c.change_actions = some ["delete"]) ∧
      ¬(c ∈ TerraformPlanAnalyzer.resources_to_create a ∧
          c ∈ TerraformPlanAnalyzer.resources_to_update a) ∧
      ¬(c ∈ TerraformPlanAnalyzer.resources_to_create a ∧
          c ∈ TerraformPlanAnalyzer.resources_to_delete a) ∧
      ¬(c ∈ TerraformPlanAnalyzer.resources_to_update a ∧
          c ∈ TerraformPlanAnalyzer.resources_to_delete a) ∧
      (c.change_actions = some ["delete", "create"] →
        c ∉ TerraformPlanAnalyzer.resources_to_create a ∧
          c ∉ TerraformPlanAnalyzer.resources_to_update a ∧
          c ∉ TerraformPlanAnalyzer.resources_to_delete a) := by
  intro a c
  simp only [TerraformPlanAnalyzer.resources_to_create,
    TerraformPlanAnalyzer.resources_to_update,
    TerraformPlanAnalyzer.resources_to_delete, List.mem_filter, beq_iff_eq]
  refine ⟨trivial, trivial, trivial, ?_, ?_, ?_, ?_⟩
  · rintro ⟨⟨-, h1⟩, -, h2⟩
    rw [h1] at h2
    exact absurd h2 (by decide)
  · rintro ⟨⟨-, h1⟩, -, h2⟩
    rw [h1] at h2
    exact absurd h2 (by decide)
  · rintro ⟨⟨-, h1⟩, -, h2⟩
    rw [h1] at h2
    exact absurd h2 (by decide)
  · intro h
    refine ⟨?_, ?_, ?_⟩ <;>
      · rintro ⟨-, h2⟩
        rw [h] at h2
        exact absurd h2 (by decide)

/-- C3 witness: a concrete replace-style change with actions
`["delete", "create"]` is selected by none of the three operations. -/
theorem C3_action_filters_exact_and_disjoint_witness :
    (⟨"azurerm_resource_group.main", some ["delete", "create"]⟩ : ResourceChange) ∉
      TerraformPlanAnalyzer.resources_to_create
        ⟨[], [⟨"azurerm_resource_group.main", some ["delete", "create"]⟩], []⟩ :=
  ((C3_action_filters_exact_and_disjoint
    ⟨[], [⟨"azurerm_resource_group.main", some ["delete", "create"]⟩], []⟩
    ⟨"azurerm_resource_group.main", some ["delete", "create"]⟩).2.2.2.2.2.2 rfl).1

/-- C6: `validate_resource_attributes` returns `True` exactly when every
resource of the queried type satisfies every expected `(key, value)` pair
under its `values` mapping (with `dict.get`'s `None` default); any single
mismatch anywhere makes it return `False`. -/
theorem C6_validate_resource_attributes_iff :
    ∀ (a : PlanDocument) (resource_type : String)
      (expected_attributes : List (String × PyVal)),
      TerraformPlanAnalyzer.validate_resource_attributes a resource_type
          expected_attributes = true ↔
        ∀ r ∈ TerraformPlanAnalyzer.get_resource_by_type a resource_type,
          ∀ kv ∈ expected_attributes, dictGet r.values kv.1 = kv.2 := by
  intro a t e
  simp only [TerraformPlanAnalyzer.validate_resource_attributes, List.all_eq_true,
    beq_iff_eq]

/-- C6 witness: a concrete plan with one matching resource passes the
attribute check, through the characterisation of C6. -/
theorem C6_validate_resource_attributes_iff_witness :
    TerraformPlanAnalyzer.validate_resource_attributes
      ⟨[⟨some "azurerm_resource_group", [("name", PyVal.vStr "test-rg")]⟩], [], []⟩
      "azurerm_resource_group" [("name", PyVal.vStr "test-rg")] = true :=
  (C6_validate_resource_attributes_iff _ _ _).mpr (by decide)

/-- C9: when no planned resource has the queried type the attribute check
is vacuously `True` for any expected mapping; and a key absent from a
resource's `values` mapping reads as `None`, so expecting `None` for a key
every such resource omits succeeds. -/
theorem C9_vacuous_truth_and_missing_reads_none :
    (∀ (a : PlanDocument) (resource_type : String)
        (expected_attributes : List (String × PyVal)),
      TerraformPlanAnalyzer.get_resource_by_type a resource_type = [] →
        TerraformPlanAnalyzer.validate_resource_attributes a resource_type
          expected_attributes = true) ∧
    (∀ (a : PlanDocument) (resource_type : String) (k : String),
      (∀ r ∈ TerraformPlanAnalyzer.get_resource_by_type a resource_type,
        r.values.find? (fun kv => kv.1 == k) = none) →
        TerraformPlanAnalyzer.validate_resource_attributes a resource_type
          [(k, PyVal.vNone)] = true) := by
  constructor
  · intro a t e h
    simp [TerraformPlanAnalyzer.validate_resource_attributes, h]
  · intro a t k h
    simp only [TerraformPlanAnalyzer.validate_resource_attributes, List.all_eq_true]
    intro r hr kv hkv
    simp only [List.mem_singleton] at hkv
    subst hkv
    simp [dictGet, h r hr]

/-- C9 witness: a plan whose only `azurerm_storage_account` resource lacks
the `tags` key passes the check expecting `tags = None`, and the check for
a type with no resources is vacuously true. -/
theorem C9_vacuous_truth_and_missing_reads_none_witness :
    TerraformPlanAnalyzer.validate_resource_attributes
        ⟨[⟨some "azurerm_storage_account", [("name", PyVal.vStr "sa1")]⟩], [], []⟩
        "azurerm_storage_account" [("tags", PyVal.vNone)] = true ∧
      TerraformPlanAnalyzer.validate_resource_attributes
        ⟨[⟨some "azurerm_storage_account", [("name", PyVal.vStr "sa1")]⟩], [], []⟩
        "azurerm_key_vault" [("name", PyVal.vStr "whatever")] = true :=
  ⟨C9_vacuous_truth_and_missing_reads_none.2 _ _ "tags" (by decide),
    C9_vacuous_truth_and_missing_reads_none.1 _ _ _ (by decide)⟩

/-- C5: `cleanup` is idempotent — after a first `cleanup` the second call
performs no removal (its `rmtree` guard is off) and leaves the state
unchanged — and every workspace operation on a cleaned-up instance
(`terraform_init`, `terraform_validate`, `terraform_plan`,
`terraform_plan_json`, `create_test_configuration`) raises its
not-initialized `RuntimeError` instead of acting on stale state. -/
theorem C5_cleanup_idempotent_then_fail_fast :
    ∀ (s : TerraformTestBase) (vf : Option String),
      (TerraformTestBase.cleanup (TerraformTestBase.cleanup s).1).2 = false ∧
      (TerraformTestBase.cleanup (TerraformTestBase.cleanup s).1).1 =
        (TerraformTestBase.cleanup s).1 ∧
      TerraformTestBase.terraform_init (TerraformTestBase.cleanup s).1 =
        Except.error "Terraform not initialized. Call setup_test_workspace() first." ∧
      TerraformTestBase.terraform_validate (TerraformTestBase.cleanup s).1 =
        Except.error "Terraform not initialized. Call setup_test_workspace() first." ∧
      TerraformTestBase.terraform_plan (TerraformTestBase.cleanup s).1 vf =
        Except.error "Terraform not initialized. Call setup_test_workspace() first." ∧
      TerraformTestBase.terraform_plan_json (TerraformTestBase.cleanup s).1 vf =
        Except.error "Terraform not initialized. Call setup_test_workspace() first." ∧
      TerraformTestBase.create_test_configuration (TerraformTestBase.cleanup s).1 =
        Except.error "Test workspace not set up. Call setup_test_workspace() first." :=
  fun _ _ => ⟨rfl, rfl, rfl, rfl, rfl, rfl, rfl⟩

/-- C5 witness: the fail-fast behaviour at a concrete freshly-constructed
and cleaned-up instance. -/
theorem C5_cleanup_idempotent_then_fail_fast_witness :
    TerraformTestBase.terraform_init
        (TerraformTestBase.cleanup
          (TerraformTestBase.mk_instance "terraform/foundation/resource-group")).1 =
      Except.error "Terraform not initialized. Call setup_test_workspace() first." :=
  (C5_cleanup_idempotent_then_fail_fast
    (TerraformTestBase.mk_instance "terraform/foundation/resource-group") none).2.2.1

/-- C7: in the validation-only analyzer every terraform invocation runs
through `_run_terraform_command` under the 120-unit timeout: exceeding it
raises a `RuntimeError` naming the offending command, while a run that
completes within the bound — with any exit code, zero or not — has its
result triple returned, not raised. -/
theorem C7_validation_timeout_fatal_nonzero_returned :
    TerraformValidationTest.command_timeout = 120 ∧
    (∀ (self : TerraformValidationTest) (proc : ProcExec),
      TerraformValidationTest.terraform_init_backend_false self proc =
        TerraformValidationTest._run_terraform_command self
          ["init", "-backend=false", "-no-color"] proc ∧
      TerraformValidationTest.terraform_validate self proc =
        TerraformValidationTest._run_terraform_command self
          ["validate", "-no-color"] proc ∧
      TerraformValidationTest.terraform_fmt_check self proc =
        TerraformValidationTest._run_terraform_command self
          ["fmt", "-check", "-no-color"] proc) ∧
    (∀ (self : TerraformValidationTest) (args : List String) (proc : ProcExec)
        (d : String), self.test_dir = some d →
      (proc.duration > TerraformValidationTest.command_timeout →
        TerraformValidationTest._run_terraform_command self args proc =
          Except.error ("Terraform command timed out: " ++
            " ".intercalate (self.terraform_cmd :: args))) ∧
      (proc.duration ≤ TerraformValidationTest.command_timeout →
        TerraformValidationTest._run_terraform_command self args proc =
          Except.ok (proc.returncode, proc.stdout, proc.stderr))) := by
  refine ⟨rfl, fun _ _ => ⟨rfl, rfl, rfl⟩, ?_⟩
  intro self args proc d hd
  constructor
  · intro hgt
    rw [TerraformValidationTest._run_terraform_command, hd]
    simp [Nat.not_le.mpr hgt]
  · intro hle
    rw [TerraformValidationTest._run_terraform_command, hd]
    simp [hle]

/-- C7 witness: a 121-unit `validate` run times out with the error naming
the command, while a 100-unit run exiting 1 is returned as a result. -/
theorem C7_validation_timeout_fatal_nonzero_returned_witness :
    TerraformValidationTest._run_terraform_command
        ⟨"/usr/bin/terraform", some "/tmp/terraform-validation-xyz"⟩
        ["validate", "-no-color"] ⟨121, 0, "", ""⟩ =
      Except.error
        "Terraform command timed out: /usr/bin/terraform validate -no-color" ∧
    TerraformValidationTest._run_terraform_command
        ⟨"/usr/bin/terraform", some "/tmp/terraform-validation-xyz"⟩
        ["validate", "-no-color"] ⟨100, 1, "", "Error: invalid block"⟩ =
      Except.ok (1, "", "Error: invalid block") :=
  ⟨by
    have h := (C7_validation_timeout_fatal_nonzero_returned.2.2
      ⟨"/usr/bin/terraform", some "/tmp/terraform-validation-xyz"⟩
      ["validate", "-no-color"] ⟨121, 0, "", ""⟩ _ rfl).1 (by decide)
    simpa using h,
  (C7_validation_timeout_fatal_nonzero_returned.2.2
    ⟨"/usr/bin/terraform", some "/tmp/terraform-validation-xyz"⟩
    ["validate", "-no-color"] ⟨100, 1, "", "Error: invalid block"⟩ _ rfl).2
    (by decide)⟩

/-- C2 counterexample: with a set-up workspace whose `init` and `plan`
subcommands exit 1, `terraform_init` returns the non-zero triple to the
caller (nothing is raised), and `terraform_plan_json` raises on the
non-zero `plan` exit — so a non-zero `init` exit is not raised by the
harness, and a non-zero `plan` exit is automatically raised on the
plan-JSON path, both contrary to the claim. -/
theorem C2_counterexample_init_returned_plan_raised :
    TerraformTestBase.terraform_init failingState = Except.ok (1, "", "init failed") ∧
    TerraformTestBase.terraform_plan_json failingState none =
      Except.error "Terraform plan failed: plan failed" :=
  ⟨rfl, rfl⟩

/-- C2 amended: the direct wrappers `terraform_init`, `terraform_validate`
and `terraform_plan` return the subcommand's `(code, stdout, stderr)`
triple to the caller whatever the exit code, raising only when the
workspace is missing; inside `terraform_plan_json` a non-zero exit of
`plan` or of `show` is raised as a fatal `RuntimeError` carrying the
captured stderr, and only a doubly-zero run returns the decoded plan. -/
theorem C2_amended_raise_return_discipline :
    ∀ (s : TerraformTestBase) (t : Terraform) (d : String) (vf : Option String),
      s.terraform = some t → s.test_dir = some d →
      TerraformTestBase.terraform_init s = Except.ok t.init ∧
      TerraformTestBase.terraform_validate s = Except.ok t.validate ∧
      TerraformTestBase.terraform_plan s vf = Except.ok (t.plan vf none) ∧
      ((t.plan vf (some (d ++ "/plan.tfplan"))).1 ≠ 0 →
        TerraformTestBase.terraform_plan_json s vf =
          Except.error
            ("Terraform plan failed: " ++ (t.plan vf (some (d ++ "/plan.tfplan"))).2.2)) ∧
      ((t.plan vf (some (d ++ "/plan.tfplan"))).1 = 0 →
        (t.show_cmd (d ++ "/plan.tfplan")).1 ≠ 0 →
        TerraformTestBase.terraform_plan_json s vf =
          Except.error
            ("Terraform show failed: " ++ (t.show_cmd (d ++ "/plan.tfplan")).2.2)) ∧
      ((t.plan vf (some (d ++ "/plan.tfplan"))).1 = 0 →
        (t.show_cmd (d ++ "/plan.tfplan")).1 = 0 →
        TerraformTestBase.terraform_plan_json s vf =
          Except.ok (t.decode (t.show_cmd (d ++ "/plan.tfplan")).2.1)) := by
  intro s t d vf ht hd
  obtain ⟨mp, td, tf⟩ := s
  simp only at ht hd
  subst ht hd
  refine ⟨rfl, rfl, rfl, ?_, ?_, ?_⟩
  · intro hplan
    simp [TerraformTestBase.terraform_plan_json, hplan]
  · intro hplan hshow
    simp [TerraformTestBase.terraform_plan_json, hplan, hshow]
  · intro hplan hshow
    simp [TerraformTestBase.terraform_plan_json, hplan, hshow]

/-- C2 amended witness: at the concrete failing instance, `terraform_init`
returns the triple and `terraform_plan_json` raises, via the amended
discipline. -/
theorem C2_amended_raise_return_discipline_witness :
    TerraformTestBase.terraform_init failingState =
        Except.ok failingClient.init ∧
      TerraformTestBase.terraform_plan_json failingState none =
        Except.error "Terraform plan failed: plan failed" :=
  ⟨(C2_amended_raise_return_discipline failingState failingClient
      "/tmp/terraform_test_abc" none rfl rfl).1,
    (C2_amended_raise_return_discipline failingState failingClient
      "/tmp/terraform_test_abc" none rfl rfl).2.2.2.1 (by decide)⟩
